import Mathlib

/-! Verification development for the deathcare data scripts: a shallow
embedding of `charts_and_grapsh.py` and `lobbying_chart.py` (pandas /
matplotlib glue over tabular survey and lobbying data), together with
theorems settling the specification's claims about the cleaning routine,
the hybrid annotated plot, the chart pipeline and the lobbying
aggregation. -/

namespace Deathcare

set_option exponentiation.threshold 2048

/-! ## Floating-point cells

Cell numbers are modelled as exact rationals extended with the two
infinities and NaN (pandas' missing-value sentinel `np.nan`).  Every
numeric literal the scripts handle is decimal, so `Rat` represents it
exactly; IEEE rounding plays no role in any claim. -/

inductive PFloat where
  | nan : PFloat
  | pinf : PFloat
  | ninf : PFloat
  | fin (q : Rat) : PFloat
deriving DecidableEq

/-! ## The numeric grammar of `pd.to_numeric`

`pd.to_numeric` on a string accepts an optional sign followed by either an
infinity token, a NaN token, or a decimal literal (digits, an optional
point, an optional exponent).  A parse failure under `errors='coerce'`
becomes NaN instead of raising. -/

def digitVal (c : Char) : Nat := c.toNat - '0'.toNat

def natOfDigits (cs : List Char) : Nat :=
  cs.foldl (fun n c => n * 10 + digitVal c) 0

/-- The exponent tail of a float literal: nothing, or `e`/`E`, an optional
sign and at least one digit. -/
def parseExpTail (cs : List Char) : Option Int :=
  match cs with
  | [] => some 0
  | c :: rest =>
    if c = 'e' ∨ c = 'E' then
      let sd : Bool × List Char :=
        match rest with
        | '+' :: r => (false, r)
        | '-' :: r => (true, r)
        | r => (false, r)
      if sd.2 ≠ [] ∧ sd.2.all Char.isDigit then
        some (if sd.1 then -(natOfDigits sd.2 : Int) else (natOfDigits sd.2 : Int))
      else none
    else none

/-- `m / 10^k * 10^e` as an exact rational. -/
def scaleExp (m : Nat) (k : Nat) (e : Int) : Rat :=
  if 0 ≤ e then mkRat ((m * 10 ^ e.toNat : Nat) : Int) (10 ^ k)
  else mkRat ((m : Nat) : Int) (10 ^ k * 10 ^ (-e).toNat)

/-- An unsigned decimal float literal: digits, an optional point with
further digits (at least one digit in total), and an optional exponent.
The literal's value is kept as an exact rational here; the conversion to a
double — in particular its overflow to infinity — is applied by
`pyFloat`. -/
def parseDecimal (cs : List Char) : Option Rat :=
  let intPart := cs.takeWhile Char.isDigit
  let rest1 := cs.dropWhile Char.isDigit
  match rest1 with
  | '.' :: rest2 =>
    let fracPart := rest2.takeWhile Char.isDigit
    let rest3 := rest2.dropWhile Char.isDigit
    if intPart = [] ∧ fracPart = [] then none
    else (parseExpTail rest3).map fun e =>
      scaleExp (natOfDigits (intPart ++ fracPart)) fracPart.length e
  | _ =>
    if intPart = [] then none
    else (parseExpTail rest1).map fun e => scaleExp (natOfDigits intPart) 0 e

/-- Split off an optional leading sign; `true` means negative. -/
def signSplit (cs : List Char) : Bool × List Char :=
  match cs with
  | '+' :: r => (false, r)
  | '-' :: r => (true, r)
  | r => (false, r)

/-- Case-insensitive `inf` / `infinity`. -/
def infToken (body : List Char) : Bool :=
  let l := body.map Char.toLower
  l == ['i', 'n', 'f'] || l == ['i', 'n', 'f', 'i', 'n', 'i', 't', 'y']

/-- Case-insensitive `nan`. -/
def nanToken (body : List Char) : Bool :=
  (body.map Char.toLower) == ['n', 'a', 'n']

/-- The smallest magnitude a decimal literal converted to an IEEE double
rounds to infinity: the midpoint `2^1024 - 2^970` between the largest
finite double `(2^53 - 1) * 2^971` and `2^1024` (ties-to-even rounds the
midpoint up, so conversion overflows exactly at and above it).  Thus
`float("1e999")` is infinity, not an error. -/
def overflowBound : Rat := ((2 ^ 1024 - 2 ^ 970 : Nat) : Rat)

/-- Parse one string as a Python float: sign, then an infinity token, a NaN
token, or a decimal literal.  In-range decimal values are kept exact (every
value a claim touches is an exact double); a literal at or beyond the
double range converts to the signed infinity, as `float` and
`pd.to_numeric` do.  (Underflow to zero stays finite and is left exact.) -/
def pyFloat (s : String) : Option PFloat :=
  let sb := signSplit s.toList
  if infToken sb.2 then some (if sb.1 then PFloat.ninf else PFloat.pinf)
  else if nanToken sb.2 then some PFloat.nan
  else (parseDecimal sb.2).map fun q =>
    if overflowBound ≤ q then (if sb.1 then PFloat.ninf else PFloat.pinf)
    else PFloat.fin (if sb.1 then -q else q)

/-- `pd.to_numeric(_, errors='coerce')` on one string entry: a failed parse
becomes NaN rather than raising. -/
def to_numeric_coerce (s : String) : PFloat := (pyFloat s).getD PFloat.nan

/-! ## Cells and columns -/

/-- One cell of a pandas column: a float (possibly NaN, the missing-value
sentinel) or a string.  `read_csv` stores a missing field as `np.nan` even
in a column of strings, so `Value.num PFloat.nan` is the missing sentinel
throughout. -/
inductive Value where
  | num (x : PFloat) : Value
  | str (s : String) : Value
deriving DecidableEq

/-- `pd.isna` on one cell. -/
def isnaV : Value → Bool
  | .num .nan => true
  | _ => false

/-- `pd.api.types.is_numeric_dtype`: in this pipeline a column has a
numeric dtype exactly when every cell is a number (an object column read
from CSV keeps strings among its cells). -/
def isNumericDtype (xs : List Value) : Bool :=
  xs.all fun v => match v with | .num _ => true | .str _ => false

/-- Python `str.strip()` whitespace (the ASCII part; the scripts' data is
ASCII). -/
def isPySpace (c : Char) : Bool :=
  c == ' ' || c == '\t' || c == '\n' || c == '\r' || c == '\x0b' || c == '\x0c'

/-- `.str.strip()` on one string. -/
def pyStrip (s : String) : String :=
  String.mk (((s.toList.dropWhile isPySpace).reverse.dropWhile isPySpace).reverse)

/-- `.str.replace(r'[$,%]', '', regex=True)`: delete every `$`, `,`, `%`. -/
def removeSymbols (s : String) : String :=
  String.mk (s.toList.filter fun c => !(c == '$' || c == ',' || c == '%'))

/-- `str(x)` for a float cell.  NaN prints `nan`, the infinities `inf` and
`-inf`.  A finite float prints its shortest decimal repr in Python; after
the pipeline's whitespace sanitisation an object column holds only strings
and NaN, so this case never reaches the cleaner and is modelled by a plain
rendering of the rational. -/
def pfloatStr : PFloat → String
  | .nan => "nan"
  | .pinf => "inf"
  | .ninf => "-inf"
  | .fin q =>
    if q.den = 1 then toString q.num ++ ".0"
    else toString q.num ++ "/" ++ toString q.den

/-- `series.astype(str)` on one cell. -/
def astypeStr : Value → String
  | .num x => pfloatStr x
  | .str s => s

/-- The text fed to `pd.to_numeric` for one cell: stringify, delete the
`$`, `,`, `%` symbols, strip whitespace. -/
def preprocess (v : Value) : String := pyStrip (removeSymbols (astypeStr v))

/-- One entry of the non-numeric branch of `clean_and_convert_to_numeric`:
preprocess, replace the exact tokens `''`, `'N/A'`, `'nan'` by NaN, and
parse the rest, coercing failures to NaN. -/
def cleanEntry (v : Value) : Value :=
  if preprocess v = "" ∨ preprocess v = "N/A" ∨ preprocess v = "nan" then
    Value.num PFloat.nan
  else Value.num (to_numeric_coerce (preprocess v))

/-- `clean_and_convert_to_numeric` of `charts_and_grapsh.py`: a
numeric-dtype column is returned unchanged; otherwise every entry is
cleaned entrywise.  The function is total: no input raises. -/
def clean_and_convert_to_numeric (xs : List Value) : List Value :=
  if isNumericDtype xs then xs else xs.map cleanEntry

/-- The entry is a finite number or the missing sentinel. -/
def finiteOrMissing : Value → Bool
  | .num (.fin _) => true
  | .num .nan => true
  | _ => false

/-! ## Claims about the cleaning routine -/

theorem cleanEntry_isNum (v : Value) : ∃ x, cleanEntry v = Value.num x := by
  unfold cleanEntry
  split
  · exact ⟨_, rfl⟩
  · exact ⟨_, rfl⟩

theorem isNumericDtype_map_cleanEntry (xs : List Value) :
    isNumericDtype (xs.map cleanEntry) = true := by
  simp only [isNumericDtype, List.all_map, List.all_eq_true, Function.comp]
  intro v _
  obtain ⟨x, hx⟩ := cleanEntry_isNum v
  simp [hx]

/-- C1 (amended): cleaning is total (never raises) and preserves the
column's length; every parse failure becomes the missing sentinel; on a
non-numeric column it is the entrywise map of `cleanEntry`; and every
output entry is a floating-point number (possibly an infinity) or the
missing sentinel.  Only the word "finite" of the original claim is
dropped: the entries `"inf"` and the overflowing `"1e999"` both come out
as positive infinity. -/
theorem C1_clean_total_entries (xs : List Value) :
    (clean_and_convert_to_numeric xs).length = xs.length ∧
    (isNumericDtype xs = false →
      clean_and_convert_to_numeric xs = xs.map cleanEntry) ∧
    (∀ v : Value, pyFloat (preprocess v) = none →
      cleanEntry v = Value.num PFloat.nan) ∧
    (∀ w ∈ clean_and_convert_to_numeric xs, ∃ x : PFloat,
      w = Value.num x) := by
  refine ⟨?_, ?_, ?_, ?_⟩
  · unfold clean_and_convert_to_numeric
    split
    · rfl
    · exact xs.length_map cleanEntry
  · intro h
    simp [clean_and_convert_to_numeric, h]
  · intro v h
    unfold cleanEntry
    split
    · rfl
    · simp [to_numeric_coerce, h]
  · intro w hw
    unfold clean_and_convert_to_numeric at hw
    split at hw
    · rename_i hn
      rw [isNumericDtype, List.all_eq_true] at hn
      cases w with
      | num x => exact ⟨x, rfl⟩
      | str s => exact Bool.noConfusion (hn _ hw)
    · obtain ⟨v, -, hv⟩ := List.mem_map.mp hw
      obtain ⟨x, hx⟩ := cleanEntry_isNum v
      exact ⟨x, hv ▸ hx⟩

/-- C1 witness: the amended theorem evaluated on a concrete column. -/
theorem C1_witness :
    (clean_and_convert_to_numeric [Value.str "abc", Value.str "inf"]).length = 2 ∧
    clean_and_convert_to_numeric [Value.str "abc", Value.str "inf"] =
      [Value.str "abc", Value.str "inf"].map cleanEntry ∧
    cleanEntry (Value.str "abc") = Value.num PFloat.nan ∧
    (∃ x : PFloat, Value.num PFloat.pinf = Value.num x) := by
  obtain ⟨h1, h2, h3, h4⟩ :=
    C1_clean_total_entries [Value.str "abc", Value.str "inf"]
  exact ⟨h1, h2 (by decide), h3 _ (by decide), h4 _ (by decide)⟩

/-- C1 counterexample: the entry `"inf"` parses successfully to positive
infinity, and so does the overflowing decimal `"1e999"` — in both cases
the output entry is neither a finite floating-point number nor the missing
sentinel, refuting the claim that every output entry is finite or
missing. -/
theorem C1_counterexample :
    clean_and_convert_to_numeric [Value.str "inf", Value.str "1e999"] =
      [Value.num PFloat.pinf, Value.num PFloat.pinf] ∧
    finiteOrMissing (Value.num PFloat.pinf) = false := by
  exact ⟨by decide, by decide⟩

/-- C2: cleaning is idempotent — applying the routine to its own output
returns the output unchanged, and a column that is already of a numeric
dtype is returned unmodified. -/
theorem C2_clean_idempotent (xs : List Value) :
    clean_and_convert_to_numeric (clean_and_convert_to_numeric xs) =
      clean_and_convert_to_numeric xs ∧
    (isNumericDtype xs = true → clean_and_convert_to_numeric xs = xs) := by
  constructor
  · by_cases h : isNumericDtype xs
    · simp [clean_and_convert_to_numeric, h]
    · simp only [clean_and_convert_to_numeric, h, if_false, Bool.false_eq_true]
      simp [isNumericDtype_map_cleanEntry xs]
  · intro h
    simp [clean_and_convert_to_numeric, h]

/-- C2 witness: idempotence and the numeric-dtype short-circuit evaluated
on a concrete numeric column. -/
theorem C2_witness :
    clean_and_convert_to_numeric
        (clean_and_convert_to_numeric [Value.num (PFloat.fin 3)]) =
      clean_and_convert_to_numeric [Value.num (PFloat.fin 3)] ∧
    clean_and_convert_to_numeric [Value.num (PFloat.fin 3)] =
      [Value.num (PFloat.fin 3)] := by
  obtain ⟨h1, h2⟩ := C2_clean_idempotent [Value.num (PFloat.fin 3)]
  exact ⟨h1, h2 (by decide)⟩

/-- C3: the documented example entries — `"$1,234.50"` cleans to 1234.50,
`"12%"` to 12.0, `" 7 "` to 7.0, and each of `""`, `"N/A"`, `"nan"` to the
missing sentinel. -/
theorem C3_concrete_values :
    clean_and_convert_to_numeric
        [Value.str "$1,234.50", Value.str "12%", Value.str " 7 ",
         Value.str "", Value.str "N/A", Value.str "nan"] =
      [Value.num (PFloat.fin (mkRat 12345 10)), Value.num (PFloat.fin 12),
       Value.num (PFloat.fin 7), Value.num PFloat.nan,
       Value.num PFloat.nan, Value.num PFloat.nan] := by
  decide

/-- C9: a missing entry never becomes a number — at every position holding
the missing sentinel the cleaned column holds the missing sentinel (in a
non-numeric column the sentinel is stringified to `"nan"` and mapped back
by the token-replacement step). -/
theorem C9_missing_preserved (xs : List Value) (i : Nat)
    (h : xs[i]? = some (Value.num PFloat.nan)) :
    (clean_and_convert_to_numeric xs)[i]? = some (Value.num PFloat.nan) := by
  have hme : cleanEntry (Value.num PFloat.nan) = Value.num PFloat.nan := by decide
  by_cases hn : isNumericDtype xs
  · simpa [clean_and_convert_to_numeric, hn] using h
  · simp [clean_and_convert_to_numeric, hn, List.getElem?_map, h, hme]

/-- C9 witness: the sentinel-preservation theorem evaluated on a concrete
column. -/
theorem C9_witness :
    (clean_and_convert_to_numeric
        [Value.str "x", Value.num PFloat.nan])[1]? =
      some (Value.num PFloat.nan) :=
  C9_missing_preserved [Value.str "x", Value.num PFloat.nan] 1 (by decide)

/-! ## Ordering of cell values

Python's `sorted()` on the category labels is modelled by insertion sort
under a total order on cells.  On strings (the only categories the
pipeline produces) the order is the lexicographic string order; it is
extended to all cells through an injective key so that sortedness,
totality and antisymmetry are available for the permutation-invariance
proof. -/

/-- Rank of a float in the numpy sort order: `-inf < finite < inf < nan`. -/
def prank : PFloat → Nat
  | .ninf => 0
  | .fin _ => 1
  | .pinf => 2
  | .nan => 3

def pval : PFloat → Rat
  | .fin q => q
  | _ => 0

/-- Injective sort key for floats. -/
def pkey (x : PFloat) : ℕ ×ₗ ℚ := toLex (prank x, pval x)

/-- The float order used for sorting, minima and maxima. -/
def ple (x y : PFloat) : Prop := pkey x ≤ pkey y

instance pleDecidable : DecidableRel ple := fun x y =>
  inferInstanceAs (Decidable (pkey x ≤ pkey y))

/-- Injective sort key for cells: strings (lexicographically) before
numbers. -/
def vkey (v : Value) : ℕ ×ₗ (String ×ₗ (ℕ ×ₗ ℚ)) :=
  match v with
  | .str s => toLex (0, toLex (s, toLex (0, 0)))
  | .num x => toLex (1, toLex ("", pkey x))

/-- The cell order `sorted()` uses; on string cells it is the
lexicographic order on their text. -/
def vle (a b : Value) : Prop := vkey a ≤ vkey b

instance vleDecidable : DecidableRel vle := fun a b =>
  inferInstanceAs (Decidable (vkey a ≤ vkey b))

theorem pkey_inj {x y : PFloat} (h : pkey x = pkey y) : x = y := by
  rw [pkey, pkey, toLex_inj, Prod.mk.injEq] at h
  cases x <;> cases y <;> simp_all [prank, pval]

theorem vkey_inj {a b : Value} (h : vkey a = vkey b) : a = b := by
  cases a <;> cases b <;>
    simp only [vkey, toLex_inj, Prod.mk.injEq] at h <;> simp_all
  exact pkey_inj h

instance : IsTotal Value vle := ⟨fun a b => le_total (vkey a) (vkey b)⟩

instance : IsTrans Value vle := ⟨fun _ _ _ h1 h2 => le_trans h1 h2⟩

instance : IsAntisymm Value vle :=
  ⟨fun _ _ h1 h2 => vkey_inj (le_antisymm h1 h2)⟩

/-- Python `sorted()` over cell values. -/
def sortValues (l : List Value) : List Value := List.insertionSort vle l

/-- Elementwise pandas `==` on cells: NaN compares unequal to everything,
including itself. -/
def valueEqB (a b : Value) : Bool :=
  match a, b with
  | .num .nan, _ => false
  | _, .num .nan => false
  | .num x, .num y => decide (x = y)
  | .str s, .str t => decide (s = t)
  | _, _ => false

theorem valueEqB_refl {v : Value} (h : isnaV v = false) :
    valueEqB v v = true := by
  cases v with
  | num x => cases x <;> simp_all [isnaV, valueEqB]
  | str s => simp [valueEqB]

/-! ## Data frames -/

/-- A pandas data frame, as the ordered list of its named columns.  The
frames the scripts build are rectangular (all columns of equal length). -/
abbrev DFrame := List (String × List Value)

/-- Whether a column of this name exists. -/
def hasCol (df : DFrame) (c : String) : Bool := df.any fun p => p.1 == c

/-- The cells of the named column (defined on present columns; accesses in
the scripts either are guarded or raise, which the callers model as
`Except.error`). -/
def getCol (df : DFrame) (c : String) : List Value :=
  match df.find? (fun p => p.1 == c) with
  | some p => p.2
  | none => []

/-- The `KeyError` pandas raises when `dropna(subset=...)` names absent
columns. -/
def keyErrorMsg (cols : List String) : String :=
  "KeyError: " ++ String.intercalate ", " cols

/-! ## The hybrid violin/swarm plot (`create_hybrid_plot`)

The drawing surface is abstracted away: the result records what would be
drawn — the placeholder text, or the category order on the x-axis, whether
the `Independent` violin is drawn, and the per-category annotations. -/

/-- One textual annotation drawn on the axes.  All values are rendered as
currency with thousands separators and no decimals; `single` and
`medianTick` sit above the point (`medianTick` with its horizontal median
line and the `Median: $` prefix), `maxAbove` above and `minBelow` below. -/
inductive Annot where
  | single (i : Nat) (v : PFloat)
  | medianTick (i : Nat) (v : PFloat)
  | maxAbove (i : Nat) (v : PFloat)
  | minBelow (i : Nat) (v : PFloat)
deriving DecidableEq

/-- What one chart renders. -/
inductive PlotResult where
  | placeholder (msg : String) : PlotResult
  | drawn : PlotResult
  | rendered (order : List Value) (violin : Bool) (annots : List Annot)
      (title : String) (xlabel : String) (ylabel : String) : PlotResult
deriving DecidableEq

def notNanF : PFloat → Bool
  | .nan => false
  | _ => true

/-- `df.dropna(subset=[value_col, category_col])`, projected onto the two
columns the function reads. -/
def dropnaPairs (pairs : List (Value × Value)) : List (Value × Value) :=
  pairs.filter fun p => !(isnaV p.1) && !(isnaV p.2)

/-- The value column of the rows whose category equals `cat` (pandas
elementwise `==`).  In every call of the pipeline the value column holds
floats; a string cell (impossible there) counts as missing. -/
def catData (rows : List (Value × Value)) (cat : Value) : List PFloat :=
  (rows.filter fun p => valueEqB p.2 cat).map fun p =>
    match p.1 with
    | .num x => x
    | .str _ => PFloat.nan

def sortPF (xs : List PFloat) : List PFloat := List.insertionSort ple xs

/-- IEEE addition on the modelled floats. -/
def padd : PFloat → PFloat → PFloat
  | .nan, _ => .nan
  | _, .nan => .nan
  | .pinf, .ninf => .nan
  | .ninf, .pinf => .nan
  | .pinf, _ => .pinf
  | _, .pinf => .pinf
  | .ninf, _ => .ninf
  | _, .ninf => .ninf
  | .fin p, .fin q => .fin (p + q)

def phalf : PFloat → PFloat
  | .fin q => .fin (q / 2)
  | x => x

/-- `Series.median()`: drop NaN, sort, take the middle element or the mean
of the two middle elements; empty yields NaN. -/
def pmedian (xs : List PFloat) : PFloat :=
  let v := sortPF (xs.filter notNanF)
  if v.length = 0 then PFloat.nan
  else if v.length % 2 = 1 then v.getD (v.length / 2) PFloat.nan
  else phalf (padd (v.getD (v.length / 2 - 1) PFloat.nan)
    (v.getD (v.length / 2) PFloat.nan))

/-- `Series.min()`: drop NaN and fold the order; empty yields NaN. -/
def pminimum (xs : List PFloat) : PFloat :=
  match xs.filter notNanF with
  | [] => PFloat.nan
  | a :: rest => rest.foldl (fun m x => if ple x m then x else m) a

/-- `Series.max()`: drop NaN and fold the order; empty yields NaN. -/
def pmaximum (xs : List PFloat) : PFloat :=
  match xs.filter notNanF with
  | [] => PFloat.nan
  | a :: rest => rest.foldl (fun m x => if ple m x then x else m) a

/-- The annotations the loop body draws for the category at x-position
`i`: nothing when the category's data is empty (the guard claim C10 shows
unreachable), the single bold value for `FPG Beers & Story` with one
distinct price, and the median/max/min trio otherwise. -/
def annotsFor (rows : List (Value × Value)) (i : Nat) (cat : Value) :
    List Annot :=
  if (catData rows cat).isEmpty then []
  else if valueEqB cat (Value.str "FPG Beers & Story") &&
      ((catData rows cat).dedup.length == 1) then
    [Annot.single i ((catData rows cat).headD PFloat.nan)]
  else
    [Annot.medianTick i (pmedian (catData rows cat)),
     Annot.maxAbove i (pmaximum (catData rows cat)),
     Annot.minBelow i (pminimum (catData rows cat))]

/-- Pair each element with its position, starting at `i`. -/
def withIdx (i : Nat) : List Value → List (Nat × Value)
  | [] => []
  | a :: rest => (i, a) :: withIdx (i + 1) rest

/-- `for i, cat in enumerate(category_order)`. -/
def annotateLoop (rows : List (Value × Value)) :
    List (Nat × Value) → List Annot
  | [] => []
  | ic :: rest => annotsFor rows ic.1 ic.2 ++ annotateLoop rows rest

/-- `sorted(plot_df[category_col].unique())`: the distinct categories of
the filtered rows in sorted order. -/
def hybridCategoryOrder (pairs : List (Value × Value)) : List Value :=
  sortValues ((dropnaPairs pairs).map Prod.snd).dedup

/-- `create_hybrid_plot` of `charts_and_grapsh.py`.  A missing column makes
`dropna(subset=...)` raise a `KeyError` (modelled as `Except.error`); an
empty filtered table renders the placeholder; otherwise the chart is
rendered with the sorted category order, the `Independent` violin when that
category is present, and the per-category annotations. -/
def create_hybrid_plot (df : DFrame) (value_col category_col : String)
    (title ylabel : String) : Except String PlotResult :=
  if ([value_col, category_col].filter fun c => !(hasCol df c)) ≠ [] then
    Except.error (keyErrorMsg ([value_col, category_col].filter fun c => !(hasCol df c)))
  else
    let pairs := (getCol df value_col).zip (getCol df category_col)
    let plot_rows := dropnaPairs pairs
    if plot_rows.isEmpty || ((plot_rows.map Prod.snd).dedup.length == 0) then
      Except.ok (PlotResult.placeholder ("No data available for " ++ title))
    else
      Except.ok (PlotResult.rendered (hybridCategoryOrder pairs)
        (!(plot_rows.filter fun p => valueEqB p.2 (Value.str "Independent")).isEmpty)
        (annotateLoop plot_rows (withIdx 0 (hybridCategoryOrder pairs)))
        title category_col ylabel)

/-! ## Claims about the hybrid plot -/

/-- C5: the x-axis category order of `create_hybrid_plot` is the sorted
(on the pipeline's string labels: lexicographically sorted) set of
distinct category labels of the filtered rows, and it is invariant under
every permutation of the input rows. -/
theorem C5_category_order (pairs pairs' : List (Value × Value))
    (hperm : pairs.Perm pairs') :
    List.Sorted vle (hybridCategoryOrder pairs) ∧
    (hybridCategoryOrder pairs).Perm
      ((dropnaPairs pairs).map Prod.snd).dedup ∧
    hybridCategoryOrder pairs = hybridCategoryOrder pairs' := by
  refine ⟨List.sorted_insertionSort vle _, List.perm_insertionSort vle _, ?_⟩
  have h2 : (((dropnaPairs pairs).map Prod.snd).dedup).Perm
      (((dropnaPairs pairs').map Prod.snd).dedup) :=
    ((hperm.filter _).map _).dedup
  exact List.eq_of_perm_of_sorted
    (((List.perm_insertionSort vle _).trans h2).trans
      (List.perm_insertionSort vle _).symm)
    (List.sorted_insertionSort vle _) (List.sorted_insertionSort vle _)

/-- C5 witness: the order theorem evaluated on a concrete row list and a
permutation of it. -/
theorem C5_witness :
    List.Sorted vle (hybridCategoryOrder
      [(Value.num (PFloat.fin 1), Value.str "B"),
       (Value.num (PFloat.fin 2), Value.str "A")]) ∧
    (hybridCategoryOrder
      [(Value.num (PFloat.fin 1), Value.str "B"),
       (Value.num (PFloat.fin 2), Value.str "A")]).Perm
      ((dropnaPairs
        [(Value.num (PFloat.fin 1), Value.str "B"),
         (Value.num (PFloat.fin 2), Value.str "A")]).map Prod.snd).dedup ∧
    hybridCategoryOrder
      [(Value.num (PFloat.fin 1), Value.str "B"),
       (Value.num (PFloat.fin 2), Value.str "A")] =
    hybridCategoryOrder
      [(Value.num (PFloat.fin 2), Value.str "A"),
       (Value.num (PFloat.fin 1), Value.str "B")] :=
  C5_category_order
    [(Value.num (PFloat.fin 1), Value.str "B"),
     (Value.num (PFloat.fin 2), Value.str "A")]
    [(Value.num (PFloat.fin 2), Value.str "A"),
     (Value.num (PFloat.fin 1), Value.str "B")]
    (by decide)

/-- C6: when both columns exist and dropping rows missing either of them
leaves nothing, `create_hybrid_plot` renders the centered no-data
placeholder and returns normally (no exception, i.e. no `Except.error`). -/
theorem C6_empty_renders_placeholder (df : DFrame) (v c t y : String)
    (hv : hasCol df v = true) (hc : hasCol df c = true)
    (he : dropnaPairs ((getCol df v).zip (getCol df c)) = []) :
    create_hybrid_plot df v c t y =
      Except.ok (PlotResult.placeholder ("No data available for " ++ t)) := by
  unfold create_hybrid_plot
  simp [hv, hc, he]

/-- C6 witness: the placeholder theorem evaluated on a concrete frame whose
only row is missing the value. -/
theorem C6_witness :
    create_hybrid_plot
      [("v", [Value.num PFloat.nan]), ("c", [Value.str "A"])]
      "v" "c" "T" "Y" =
    Except.ok (PlotResult.placeholder ("No data available for " ++ "T")) :=
  C6_empty_renders_placeholder
    [("v", [Value.num PFloat.nan]), ("c", [Value.str "A"])]
    "v" "c" "T" "Y" (by decide) (by decide) (by decide)

/-- C7: a category labelled exactly `FPG Beers & Story` whose data has
exactly one distinct value gets the single currency annotation of that
value and no median/min/max annotations; every other non-empty category
gets the `Median: $` tick, the maximum above and the minimum below its
point. -/
theorem C7_category_annotations (rows : List (Value × Value)) (i : Nat)
    (cat : Value) :
    (catData rows cat ≠ [] →
      (valueEqB cat (Value.str "FPG Beers & Story") &&
        ((catData rows cat).dedup.length == 1)) = true →
      annotsFor rows i cat =
        [Annot.single i ((catData rows cat).headD PFloat.nan)]) ∧
    (catData rows cat ≠ [] →
      (valueEqB cat (Value.str "FPG Beers & Story") &&
        ((catData rows cat).dedup.length == 1)) = false →
      annotsFor rows i cat =
        [Annot.medianTick i (pmedian (catData rows cat)),
         Annot.maxAbove i (pmaximum (catData rows cat)),
         Annot.minBelow i (pminimum (catData rows cat))]) := by
  constructor
  · intro h1 h2
    simp [annotsFor, List.isEmpty_iff, h1, h2]
  · intro h1 h2
    simp [annotsFor, List.isEmpty_iff, h1, h2]

/-- C7 witness: both annotation branches evaluated on concrete rows. -/
theorem C7_witness :
    annotsFor [(Value.num (PFloat.fin 5), Value.str "FPG Beers & Story")] 0
        (Value.str "FPG Beers & Story") =
      [Annot.single 0
        ((catData [(Value.num (PFloat.fin 5), Value.str "FPG Beers & Story")]
          (Value.str "FPG Beers & Story")).headD PFloat.nan)] ∧
    annotsFor
        [(Value.num (PFloat.fin 1), Value.str "A"),
         (Value.num (PFloat.fin 3), Value.str "A")] 0 (Value.str "A") =
      [Annot.medianTick 0 (pmedian (catData
          [(Value.num (PFloat.fin 1), Value.str "A"),
           (Value.num (PFloat.fin 3), Value.str "A")] (Value.str "A"))),
       Annot.maxAbove 0 (pmaximum (catData
          [(Value.num (PFloat.fin 1), Value.str "A"),
           (Value.num (PFloat.fin 3), Value.str "A")] (Value.str "A"))),
       Annot.minBelow 0 (pminimum (catData
          [(Value.num (PFloat.fin 1), Value.str "A"),
           (Value.num (PFloat.fin 3), Value.str "A")] (Value.str "A")))] :=
  ⟨(C7_category_annotations
      [(Value.num (PFloat.fin 5), Value.str "FPG Beers & Story")] 0
      (Value.str "FPG Beers & Story")).1 (by decide) (by decide),
   (C7_category_annotations
      [(Value.num (PFloat.fin 1), Value.str "A"),
       (Value.num (PFloat.fin 3), Value.str "A")] 0 (Value.str "A")).2
      (by decide) (by decide)⟩

/-- C10: the empty-category guard in the annotation loop is unreachable —
every label of the sorted category order comes from a filtered row, so its
category data is non-empty and the loop body always draws annotations. -/
theorem C10_guard_unreachable (pairs : List (Value × Value)) (i : Nat)
    (cat : Value) (h : cat ∈ hybridCategoryOrder pairs) :
    catData (dropnaPairs pairs) cat ≠ [] ∧
    annotsFor (dropnaPairs pairs) i cat ≠ [] := by
  have h1 : cat ∈ ((dropnaPairs pairs).map Prod.snd).dedup :=
    (List.perm_insertionSort vle _).mem_iff.mp h
  obtain ⟨p, hp, hpc⟩ := List.mem_map.mp (List.mem_dedup.mp h1)
  have hna : isnaV p.2 = false := by
    have := List.of_mem_filter hp
    simp only [Bool.and_eq_true, Bool.not_eq_true'] at this
    exact this.2
  have hf : p ∈ (dropnaPairs pairs).filter fun q => valueEqB q.2 cat :=
    List.mem_filter.mpr ⟨hp, hpc ▸ valueEqB_refl hna⟩
  have hcd : catData (dropnaPairs pairs) cat ≠ [] :=
    List.ne_nil_of_mem (List.mem_map_of_mem _ hf)
  refine ⟨hcd, ?_⟩
  unfold annotsFor
  split
  · rename_i hemp
    exact absurd (List.isEmpty_iff.mp hemp) hcd
  · split <;> simp

/-- C10 witness: the guard theorem evaluated on a concrete row list. -/
theorem C10_witness :
    catData (dropnaPairs [(Value.num (PFloat.fin 1), Value.str "A")])
      (Value.str "A") ≠ [] ∧
    annotsFor (dropnaPairs [(Value.num (PFloat.fin 1), Value.str "A")]) 0
      (Value.str "A") ≠ [] :=
  C10_guard_unreachable [(Value.num (PFloat.fin 1), Value.str "A")] 0
    (Value.str "A") (by decide)

/-! ## Pipeline A: the orchestration of `main` in `charts_and_grapsh.py` -/

/-- The fixed list of columns `main` cleans. -/
def cols_to_clean : List String :=
  ["Latitude", "Longitude", "BasicServicesFee",
   "DirectCremationLowestPrice", "DirectCremation_Pct_Change",
   "ImmediateBurialLowestPrice"]

/-- The warning `main` prints for an absent expected column. -/
def missingColWarning (col : String) : String :=
  "Warning: Column '" ++ col ++ "' not found in the CSV file."

/-- `.str.strip()` on one cell of an object column: strings are stripped,
non-string cells (floats, NaN) become NaN. -/
def stripCell : Value → Value
  | .str s => .str (pyStrip s)
  | .num _ => .num PFloat.nan

/-- The whitespace sanitisation loop of `main`: every object-dtype column
is `.str.strip()`ped; numeric-dtype columns are left alone. -/
def sanitize (df : DFrame) : DFrame :=
  df.map fun p =>
    if isNumericDtype p.2 then p else (p.1, p.2.map stripCell)

/-- Column assignment `df[name] = xs`: overwrite the column of that name,
or append it. -/
def setCol (df : DFrame) (name : String) (xs : List Value) : DFrame :=
  if hasCol df name then
    df.map fun p => if p.1 == name then (name, xs) else p
  else df ++ [(name, xs)]

/-- One step of the cleaning loop: clean a present column into its
`_cleaned` counterpart, warn otherwise. -/
def cleanStep (acc : DFrame × List String) (col : String) :
    DFrame × List String :=
  if hasCol acc.1 col then
    (setCol acc.1 (col ++ "_cleaned")
      (clean_and_convert_to_numeric (getCol acc.1 col)), acc.2)
  else (acc.1, acc.2 ++ [missingColWarning col])

/-- The cleaning loop of `main` over `cols_to_clean`, returning the frame
with the `_cleaned` columns added and the warnings printed to stdout. -/
def cleanColumns (df : DFrame) : DFrame × List String :=
  cols_to_clean.foldl cleanStep (df, [])

/-- The frames the scripts build are rectangular, so the row count is the
first column's length. -/
def numRows (df : DFrame) : Nat :=
  match df with
  | [] => 0
  | p :: _ => p.2.length

/-- Whether `df.dropna(subset=subset)` is empty (all named columns
present). -/
def dropnaEmpty (df : DFrame) (subset : List String) : Bool :=
  ((List.range (numRows df)).filter fun i =>
    subset.all fun c =>
      !(isnaV ((getCol df c).getD i (Value.num PFloat.nan)))).isEmpty

/-- One of the plain (scatter/histogram) charts of `main`: `KeyError` on an
absent subset column, the empty-data placeholder on an empty filtered
table, a drawn chart otherwise. -/
def simpleChart (df : DFrame) (subset : List String) (msg : String) :
    Except String PlotResult :=
  if (subset.filter fun c => !(hasCol df c)) ≠ [] then
    Except.error (keyErrorMsg (subset.filter fun c => !(hasCol df c)))
  else if dropnaEmpty df subset then Except.ok (PlotResult.placeholder msg)
  else Except.ok PlotResult.drawn

/-- The body of `main` after loading: sanitize, clean, then render the
eight charts in order.  The first exception aborts the rest of the run
(modelled by the `Except` bind). -/
def pipelineA (df0 : DFrame) : Except String (List PlotResult) := do
  let df := (cleanColumns (sanitize df0)).1
  let c1 ← simpleChart df
    ["Latitude_cleaned", "Longitude_cleaned", "Ownership"]
    "No data for Geographic Distribution plot."
  let c2 ← simpleChart df ["DirectCremationLowestPrice_cleaned"]
    "No data for Direct Cremation Price plot."
  let c3 ← simpleChart df ["ImmediateBurialLowestPrice_cleaned"]
    "No data for Immediate Burial Price plot."
  let c4 ← create_hybrid_plot df "BasicServicesFee_cleaned" "Ownership"
    "Distribution of Basic Services Fee by Ownership Type"
    "Basic Services Fee ($)"
  let c5 ← create_hybrid_plot df "DirectCremationLowestPrice_cleaned"
    "Ownership" "Distribution of Direct Cremation Price by Ownership Type"
    "Direct Cremation Lowest Price ($)"
  let c6 ← create_hybrid_plot df "ImmediateBurialLowestPrice_cleaned"
    "Ownership" "Distribution of Immediate Burial Price by Ownership Type"
    "Immediate Burial Lowest Price ($)"
  let c7 ← simpleChart df ["DirectCremation_Pct_Change_cleaned"]
    "No data for Cremation Pct. Change plot."
  let c8 ← simpleChart df
    ["BasicServicesFee_cleaned", "DirectCremationLowestPrice_cleaned",
     "Ownership"]
    "No data for Fee vs. Cremation Price plot."
  pure [c1, c2, c3, c4, c5, c6, c7, c8]

/-- The top-level try/except of `main`: a completed run prints the success
message; an exception reaching the top level prints the generic error
message instead (the run is aborted at that point). -/
def mainMessage (df0 : DFrame) : String :=
  match pipelineA df0 with
  | .ok _ => "Plots have been saved to the script's directory as PNG files."
  | .error e => "An unexpected error occurred: " ++ e

/-! ## Claim C4: a missing expected column -/

theorem hasCol_overwrite (df : DFrame) (n : String) (xs : List Value)
    (m : String) (h : (n == m) = false) :
    hasCol (df.map fun p => if p.1 == n then (n, xs) else p) m =
      hasCol df m := by
  induction df with
  | nil => rfl
  | cons p rest ih =>
    simp only [List.map_cons, hasCol, List.any_cons] at ih ⊢
    rw [ih]
    congr 1
    by_cases hp : p.1 == n
    · have hpn : p.1 = n := by simpa using hp
      simp [hp, hpn, h]
    · simp [hp]

theorem hasCol_setCol_ne (df : DFrame) (n : String) (xs : List Value)
    (m : String) (h : (n == m) = false) :
    hasCol (setCol df n xs) m = hasCol df m := by
  unfold setCol
  split
  · exact hasCol_overwrite df n xs m h
  · simp [hasCol, List.any_append, h]

theorem hasCol_sanitize (df : DFrame) (c : String) :
    hasCol (sanitize df) c = hasCol df c := by
  induction df with
  | nil => rfl
  | cons p rest ih =>
    simp only [sanitize, List.map_cons, hasCol, List.any_cons] at ih ⊢
    rw [ih]
    congr 1
    split <;> rfl

theorem cleanStep_warn_mono (acc : DFrame × List String) (col : String)
    (w : String) (h : w ∈ acc.2) : w ∈ (cleanStep acc col).2 := by
  unfold cleanStep
  split
  · exact h
  · exact List.mem_append_left _ h

theorem cleanStep_hasCol_ne (acc : DFrame × List String) (col m : String)
    (hm : ((col ++ "_cleaned") == m) = false) :
    hasCol (cleanStep acc col).1 m = hasCol acc.1 m := by
  unfold cleanStep
  split
  · exact hasCol_setCol_ne _ _ _ _ hm
  · rfl

theorem cleanFold_hasCol_ne (cols : List String)
    (acc : DFrame × List String) (m : String)
    (hm : (cols.all fun col => !((col ++ "_cleaned") == m)) = true) :
    hasCol (cols.foldl cleanStep acc).1 m = hasCol acc.1 m := by
  induction cols generalizing acc with
  | nil => rfl
  | cons c rest ih =>
    simp only [List.all_cons, Bool.and_eq_true, Bool.not_eq_true'] at hm
    rw [List.foldl_cons, ih _ hm.2, cleanStep_hasCol_ne _ _ _ hm.1]

theorem cleanFold_warn_mono (cols : List String)
    (acc : DFrame × List String) (w : String) (h : w ∈ acc.2) :
    w ∈ (cols.foldl cleanStep acc).2 := by
  induction cols generalizing acc with
  | nil => exact h
  | cons c rest ih => exact ih _ (cleanStep_warn_mono _ _ _ h)

theorem create_hybrid_plot_missing (df : DFrame) (v c t y : String)
    (h : hasCol df v = false) :
    ∃ e, create_hybrid_plot df v c t y = Except.error e := by
  have hv : v ∈ ([v, c].filter fun s => !(hasCol df s)) :=
    List.mem_filter.mpr ⟨by simp, by simp [h]⟩
  have hne : ([v, c].filter fun s => !(hasCol df s)) ≠ [] :=
    List.ne_nil_of_mem hv
  unfold create_hybrid_plot
  rw [if_pos hne]
  exact ⟨_, rfl⟩

/-- C4 (amended): when the expected column `BasicServicesFee` is absent
from the loaded table, the cleaning loop prints the warning for it and
does not create `BasicServicesFee_cleaned`; but a chart depending on that
cleaned column does not degrade to the placeholder — its
`dropna(subset=...)` raises a `KeyError`, which the top-level handler
catches as a generic error, aborting the rest of the run. -/
theorem C4_missing_column_aborts (df : DFrame) (t y : String)
    (h1 : hasCol df "BasicServicesFee" = false)
    (h2 : hasCol df "BasicServicesFee_cleaned" = false) :
    missingColWarning "BasicServicesFee" ∈ (cleanColumns (sanitize df)).2 ∧
    hasCol (cleanColumns (sanitize df)).1 "BasicServicesFee_cleaned" =
      false ∧
    ∃ e, create_hybrid_plot (cleanColumns (sanitize df)).1
        "BasicServicesFee_cleaned" "Ownership" t y = Except.error e := by
  have hs1 : hasCol (sanitize df) "BasicServicesFee" = false := by
    rw [hasCol_sanitize]; exact h1
  have hs2 : hasCol (sanitize df) "BasicServicesFee_cleaned" = false := by
    rw [hasCol_sanitize]; exact h2
  have hpre_b : hasCol ((["Latitude", "Longitude"]).foldl cleanStep
      ((sanitize df), [])).1 "BasicServicesFee" = false := by
    rw [cleanFold_hasCol_ne _ _ _ (by decide)]
    exact hs1
  have hpre_c : hasCol ((["Latitude", "Longitude"]).foldl cleanStep
      ((sanitize df), [])).1 "BasicServicesFee_cleaned" = false := by
    rw [cleanFold_hasCol_ne _ _ _ (by decide)]
    exact hs2
  have hstep : cleanStep ((["Latitude", "Longitude"]).foldl cleanStep
      ((sanitize df), [])) "BasicServicesFee" =
      (((["Latitude", "Longitude"]).foldl cleanStep
        ((sanitize df), [])).1,
       ((["Latitude", "Longitude"]).foldl cleanStep
        ((sanitize df), [])).2 ++
         [missingColWarning "BasicServicesFee"]) := by
    rw [cleanStep, if_neg (by rw [hpre_b]; exact Bool.false_ne_true)]
  have hcc : cleanColumns (sanitize df) =
      (["DirectCremationLowestPrice", "DirectCremation_Pct_Change",
        "ImmediateBurialLowestPrice"]).foldl cleanStep
        (cleanStep ((["Latitude", "Longitude"]).foldl cleanStep
          ((sanitize df), [])) "BasicServicesFee") := rfl
  refine ⟨?_, ?_, ?_⟩
  · rw [hcc]
    apply cleanFold_warn_mono
    rw [hstep]
    exact List.mem_append_right _ (List.mem_singleton.mpr rfl)
  · rw [hcc, cleanFold_hasCol_ne _ _ _ (by decide), hstep]
    exact hpre_c
  · apply create_hybrid_plot_missing
    rw [hcc, cleanFold_hasCol_ne _ _ _ (by decide), hstep]
    exact hpre_c

/-- C4 witness: the amended theorem evaluated on a concrete frame lacking
`BasicServicesFee`. -/
theorem C4_witness :
    missingColWarning "BasicServicesFee" ∈
      (cleanColumns (sanitize [("Ownership", ([] : List Value))])).2 ∧
    hasCol (cleanColumns (sanitize [("Ownership", ([] : List Value))])).1
      "BasicServicesFee_cleaned" = false ∧
    ∃ e, create_hybrid_plot
        (cleanColumns (sanitize [("Ownership", ([] : List Value))])).1
        "BasicServicesFee_cleaned" "Ownership" "T" "Y" = Except.error e :=
  C4_missing_column_aborts [("Ownership", [])] "T" "Y"
    (by decide) (by decide)

/-- A concrete survey table holding every expected column except
`BasicServicesFee`. -/
def noBSFTable : DFrame :=
  [("Ownership", [Value.str "Independent"]),
   ("Latitude", [Value.str "42.0"]),
   ("Longitude", [Value.str "-71.0"]),
   ("DirectCremationLowestPrice", [Value.str "$1,000"]),
   ("DirectCremation_Pct_Change", [Value.str "5%"]),
   ("ImmediateBurialLowestPrice", [Value.str "$2,000"])]

/-- C4 counterexample: on a table lacking only `BasicServicesFee`, the
warning is printed and the cleaned counterpart is absent, but the chart
depending on `BasicServicesFee_cleaned` raises a `KeyError` instead of
rendering the empty-data placeholder, so the run aborts with the generic
top-level error message after the first three charts. -/
theorem C4_counterexample :
    (cleanColumns (sanitize noBSFTable)).2 =
      [missingColWarning "BasicServicesFee"] ∧
    hasCol (cleanColumns (sanitize noBSFTable)).1
      "BasicServicesFee_cleaned" = false ∧
    create_hybrid_plot (cleanColumns (sanitize noBSFTable)).1
        "BasicServicesFee_cleaned" "Ownership"
        "Distribution of Basic Services Fee by Ownership Type"
        "Basic Services Fee ($)" =
      Except.error (keyErrorMsg ["BasicServicesFee_cleaned"]) ∧
    pipelineA noBSFTable =
      Except.error (keyErrorMsg ["BasicServicesFee_cleaned"]) ∧
    mainMessage noBSFTable =
      "An unexpected error occurred: " ++
        keyErrorMsg ["BasicServicesFee_cleaned"] := by
  refine ⟨by decide, by decide, by rfl, by rfl, by rfl⟩

/-! ## Pipeline B: `lobbying_chart.py` -/

/-- One row of the lobbying table embedded in the script: the year text
and the five entity columns plus the Total column. -/
structure LRow where
  year : String
  yearth : Int
  mfda : Int
  affs : Int
  mca : Int
  mountAuburn : Int
  total : Int

/-- The embedded CSV data of `lobbying_chart.py` (quotes of the first
row's year field are stripped by the CSV reader). -/
def lobbyingData : List LRow :=
  [⟨"2025(*Jan-June)", 22911, 41000, 3750, 9000, 36610, 113271⟩,
   ⟨"2024", 0, 92166, 0, 18000, 60000, 172190⟩,
   ⟨"2023", 0, 58000, 0, 16000, 60910, 136933⟩,
   ⟨"2022", 0, 28000, 0, 12000, 54750, 96772⟩,
   ⟨"2021", 0, 28678, 0, 12000, 0, 42699⟩,
   ⟨"2020", 0, 14428, 0, 12000, 0, 28448⟩,
   ⟨"2019", 0, 14000, 0, 12000, 0, 28019⟩,
   ⟨"2018", 0, 10000, 0, 12000, 0, 24018⟩,
   ⟨"2017", 0, 14000, 0, 12000, 0, 28017⟩,
   ⟨"2016", 0, 14000, 0, 12000, 0, 28016⟩,
   ⟨"2015", 0, 14000, 0, 12000, 0, 28015⟩]

/-- `.str.extract(r'(\d{4})')`: the first window of four consecutive
digits of the string. -/
def extract4 : List Char → Option Nat
  | a :: b :: c :: d :: rest =>
    if a.isDigit && b.isDigit && c.isDigit && d.isDigit then
      some (natOfDigits [a, b, c, d])
    else extract4 (b :: c :: d :: rest)
  | _ => none

/-- The year of a row after extraction and `astype(int)` (the embedded
data always contains a four-digit year; `astype(int)` would raise
otherwise). -/
def yearOf (r : LRow) : Nat := (extract4 r.year.toList).getD 0

/-- `df[funeral_groups].sum(axis=1)`: Yearth Funeral Group, the
Massachusetts Funeral Directors Association and Affiliated Family Funeral
Service. -/
def funeralGroupSpending (r : LRow) : Int := r.yearth + r.mfda + r.affs

/-- `df[cemetery_groups].sum(axis=1)`: the Massachusetts Cemetery
Association and the Proprietors of the Cemetery of Mount Auburn. -/
def cemeteryGroupSpending (r : LRow) : Int := r.mca + r.mountAuburn

/-- The year-range filter `2017 <= Year <= 2024`. -/
def lobbyingFiltered : List LRow :=
  lobbyingData.filter fun r =>
    decide (2017 ≤ yearOf r) && decide (yearOf r ≤ 2024)

/-- The aggregated frame, sorted by year ascending: year, Funeral Group
Spending, Cemetery Group Spending. -/
def lobbyingAgg : List (Nat × Int × Int) :=
  (List.insertionSort (fun a b => yearOf a ≤ yearOf b) lobbyingFiltered).map
    fun r => (yearOf r, funeralGroupSpending r, cemeteryGroupSpending r)

/-- C8: the `"2025(*Jan-June)"` year extracts to 2025 (and is filtered
out), the kept years are exactly 2017–2024, and the aggregated 2024 row
has Funeral Group Spending 92166 and Cemetery Group Spending 78000. -/
theorem C8_lobbying_2024 :
    extract4 ("2025(*Jan-June)".toList) = some 2025 ∧
    lobbyingAgg.map Prod.fst =
      [2017, 2018, 2019, 2020, 2021, 2022, 2023, 2024] ∧
    lobbyingAgg.find? (fun p => p.1 == 2024) =
      some (2024, 92166, 78000) := by
  refine ⟨by decide, by decide, by decide⟩

end Deathcare
